import Mathlib

/-!
Shallow embedding of the Flowise configuration manager
(`src/src/lib/flowise-config.ts`).

The module is a data holder: a mutable configuration record, a fixed
ten-entry endpoint table, and getter / URL-builder / header-builder /
validator / partial-update methods on a `FlowiseConfigManager` class.
Mutation is embedded as explicit state passing: `updateConfig` returns the
new manager value.  JavaScript-specific behaviour is made explicit:
truthiness tests on strings and numbers (`x ? a : b`, `x || d`), the
nullish-coalescing operator (`x ?? d`), object-spread merging of partial
records, and dynamic member lookup (which yields `undefined`, stringified
as `"undefined"` inside a template literal, rather than raising).
-/

namespace Flowise

/-- Environment inputs read when the default configuration record is built:
the two process-environment variables, each possibly unset. -/
structure Env where
  FLOWISE_API_KEY : Option String
  FLOWISE_BASE_URL : Option String
  deriving Repr, DecidableEq

/-- JavaScript `s || fallback` for a possibly-undefined string: `undefined`
and the empty string are falsy and give the fallback. -/
def jsOr (v : Option String) (fallback : String) : String :=
  match v with
  | none => fallback
  | some s => if s = "" then fallback else s

/-- JavaScript `n || fallback` for a possibly-undefined number: `undefined`
and `0` are falsy and give the fallback. -/
def jsOrNat (v : Option Nat) (fallback : Nat) : Nat :=
  match v with
  | none => fallback
  | some n => if n = 0 then fallback else n

/-- Truthiness of an optional JavaScript string (the `path ?` test in
`buildUrl`): `undefined` and the empty string are falsy. -/
def truthyStr : Option String → Bool
  | none => false
  | some s => s != ""

/-- Template-literal stringification of a possibly-undefined string:
`undefined` prints as the text `"undefined"`. -/
def jsStringOf : Option String → String
  | none => "undefined"
  | some s => s

/-- The `FlowiseConfig` interface: `apiKey` and `baseUrl` are required
strings, the remaining four fields are optional. -/
structure FlowiseConfig where
  apiKey : String
  baseUrl : String
  timeout : Option Nat
  retries : Option Nat
  enableLogging : Option Bool
  enableCaching : Option Bool
  deriving Repr, DecidableEq

/-- A `Partial<FlowiseConfig>`: every field may be absent (`none`); a
present optional field carries its possibly-undefined value, so
`some none` is a field explicitly set to `undefined` while `none` is an
absent key (object spread treats the two differently). -/
structure PartialFlowiseConfig where
  apiKey : Option String
  baseUrl : Option String
  timeout : Option (Option Nat)
  retries : Option (Option Nat)
  enableLogging : Option (Option Bool)
  enableCaching : Option (Option Bool)
  deriving Repr, DecidableEq

/-- The partial record `{}` with no keys. -/
def emptyPartial : PartialFlowiseConfig :=
  { apiKey := none, baseUrl := none, timeout := none, retries := none
    enableLogging := none, enableCaching := none }

/-- Object-spread merge `{ ...base, ...p }`: a key present in `p`
overrides the corresponding field of `base`, an absent key keeps it. -/
def mergeConfig (base : FlowiseConfig) (p : PartialFlowiseConfig) : FlowiseConfig :=
  { apiKey := p.apiKey.getD base.apiKey
    baseUrl := p.baseUrl.getD base.baseUrl
    timeout := p.timeout.getD base.timeout
    retries := p.retries.getD base.retries
    enableLogging := p.enableLogging.getD base.enableLogging
    enableCaching := p.enableCaching.getD base.enableCaching }

/-- The `DEFAULT_FLOWISE_CONFIG` constant, parametrised by the two
environment variables it reads. -/
def DEFAULT_FLOWISE_CONFIG (env : Env) : FlowiseConfig :=
  { apiKey := jsOr env.FLOWISE_API_KEY ""
    baseUrl := jsOr env.FLOWISE_BASE_URL "https://api.flowiseai.com"
    timeout := some 30000
    retries := some 3
    enableLogging := some true
    enableCaching := some true }

/-- The `FlowiseApiEndpoints` interface: ten string fields. -/
structure FlowiseApiEndpoints where
  assistants : String
  attachments : String
  documentStore : String
  leads : String
  ping : String
  prediction : String
  tools : String
  upsertHistory : String
  «variables» : String
  vectorUpsert : String
  deriving Repr, DecidableEq

/-- The `FLOWISE_ENDPOINTS` constant table. -/
def FLOWISE_ENDPOINTS : FlowiseApiEndpoints :=
  { assistants := "/api/v1/assistants"
    attachments := "/api/v1/attachments"
    documentStore := "/api/v1/documents"
    leads := "/api/v1/leads"
    ping := "/api/v1/ping"
    prediction := "/api/v1/prediction"
    tools := "/api/v1/tools"
    upsertHistory := "/api/v1/upsert-history"
    «variables» := "/api/v1/variables"
    vectorUpsert := "/api/v1/vector-upsert" }

/-- The closed key set `keyof FlowiseApiEndpoints`: the ten legal endpoint
names of the statically-typed `buildUrl`. -/
inductive EndpointName where
  | assistants | attachments | documentStore | leads | ping
  | prediction | tools | upsertHistory | «variables» | vectorUpsert
  deriving Repr, DecidableEq

/-- Member access `e[name]` for a statically-known key. -/
def FlowiseApiEndpoints.get (e : FlowiseApiEndpoints) : EndpointName → String
  | .assistants => e.assistants
  | .attachments => e.attachments
  | .documentStore => e.documentStore
  | .leads => e.leads
  | .ping => e.ping
  | .prediction => e.prediction
  | .tools => e.tools
  | .upsertHistory => e.upsertHistory
  | .«variables» => e.«variables»
  | .vectorUpsert => e.vectorUpsert

/-- The ten key strings of the endpoint table, in declaration order. -/
def endpointNames : List String :=
  ["assistants", "attachments", "documentStore", "leads", "ping",
   "prediction", "tools", "upsertHistory", "variables", "vectorUpsert"]

/-- Own-property access on the endpoint table by an arbitrary string key:
a key outside the ten own properties of the object literal yields
`undefined` (`none`).  Full member access `e[name]` additionally consults
the prototype chain; see `objectProtoKeys` and `buildUrlJs`. -/
def endpointLookup (e : FlowiseApiEndpoints) (name : String) : Option String :=
  if name = "assistants" then some e.assistants
  else if name = "attachments" then some e.attachments
  else if name = "documentStore" then some e.documentStore
  else if name = "leads" then some e.leads
  else if name = "ping" then some e.ping
  else if name = "prediction" then some e.prediction
  else if name = "tools" then some e.tools
  else if name = "upsertHistory" then some e.upsertHistory
  else if name = "variables" then some e.«variables»
  else if name = "vectorUpsert" then some e.vectorUpsert
  else none

/-- Keys a plain object literal inherits from `Object.prototype`: member
access with one of these keys finds a truthy built-in member on the
prototype chain instead of `undefined`, and its template-literal
stringification is engine-defined, so such accesses are left outside the
embedding (`buildUrlJs` returns `none` for them). -/
def objectProtoKeys : List String :=
  ["constructor", "hasOwnProperty", "isPrototypeOf", "propertyIsEnumerable",
   "toLocaleString", "toString", "valueOf", "__proto__", "__defineGetter__",
   "__defineSetter__", "__lookupGetter__", "__lookupSetter__"]

/-- JavaScript `s.startsWith(p)` over the character data of the two
strings (the kernel-computable counterpart of the library prefix test). -/
def strStartsWith (s p : String) : Bool :=
  p.data.isPrefixOf s.data

/-- The result record of `validate()`. -/
structure ValidationResult where
  valid : Bool
  errors : List String
  deriving Repr, DecidableEq

/-- The error vocabulary the specification attributes to this module.  The
source itself contains no `throw` statement, so no operation ever produces
a value of this type; it exists so that the claimed failure behaviour of
`buildUrl` is expressible in the embedding. -/
inductive FlowiseError where
  | UnknownEndpoint
  deriving Repr, DecidableEq

/-- The `FlowiseConfigManager` class state: the private `config` record and
the private `endpoints` table. -/
structure FlowiseConfigManager where
  config : FlowiseConfig
  endpoints : FlowiseApiEndpoints
  deriving Repr, DecidableEq

/-- The constructor: spread the caller partial over the default record and
store the constant endpoint table. -/
def FlowiseConfigManager.new (env : Env) (config : PartialFlowiseConfig) :
    FlowiseConfigManager :=
  { config := mergeConfig (DEFAULT_FLOWISE_CONFIG env) config
    endpoints := FLOWISE_ENDPOINTS }

/-- Method `getConfig()`. -/
def FlowiseConfigManager.getConfig (m : FlowiseConfigManager) : FlowiseConfig :=
  m.config

/-- Method `getEndpoints()`. -/
def FlowiseConfigManager.getEndpoints (m : FlowiseConfigManager) : FlowiseApiEndpoints :=
  m.endpoints

/-- Method `buildUrl(endpoint, path?)` at its TypeScript type: the endpoint
argument ranges over the ten-name key type, the optional sub-path is
`Option String`.  `path ? endpointPath/path : endpointPath` tests the
sub-path for truthiness. -/
def FlowiseConfigManager.buildUrl (m : FlowiseConfigManager) (endpoint : EndpointName)
    (path : Option String) : String :=
  let baseUrl := m.config.baseUrl
  let endpointPath := m.endpoints.get endpoint
  let fullPath := if truthyStr path then endpointPath ++ "/" ++ path.getD "" else endpointPath
  baseUrl ++ fullPath

/-- Method `buildUrl` under dynamic (runtime) semantics, with the static
key restriction bypassed and an arbitrary string as endpoint name.  Member
access `this.endpoints[endpoint]` consults the prototype chain: one of the
ten own keys yields its path string; a key of `Object.prototype` yields an
inherited truthy member whose stringification is engine-defined, so those
calls are left unmodelled (`none`); every other key yields `undefined`,
which the template literal stringifies as `"undefined"`.  The inner result
type is `Except FlowiseError String` so that the failure behaviour the
specification claims is expressible; the body, like the source (which
contains no `throw` and no error handling), returns `Except.ok` on every
modelled path. -/
def FlowiseConfigManager.buildUrlJs (m : FlowiseConfigManager) (endpoint : String)
    (path : Option String) : Option (Except FlowiseError String) :=
  if endpointLookup m.endpoints endpoint = none ∧ endpoint ∈ objectProtoKeys then
    none
  else
    let baseUrl := m.config.baseUrl
    let endpointPath := endpointLookup m.endpoints endpoint
    let fullPath : Option String :=
      if truthyStr path then some (jsStringOf endpointPath ++ "/" ++ path.getD "")
      else endpointPath
    some (Except.ok (baseUrl ++ jsStringOf fullPath))

/-- Method `getHeaders()`: two fixed headers, plus `Authorization` when the
stored `apiKey` is truthy (non-empty). -/
def FlowiseConfigManager.getHeaders (m : FlowiseConfigManager) : List (String × String) :=
  let headers : List (String × String) :=
    [("Content-Type", "application/json"), ("User-Agent", "Zania-Platform/1.0.0")]
  if m.config.apiKey != "" then
    headers ++ [("Authorization", "Bearer " ++ m.config.apiKey)]
  else
    headers

/-- Method `validate()`: three unconditional checks pushing error strings
in order; `valid` is the emptiness test of the accumulated list. -/
def FlowiseConfigManager.validate (m : FlowiseConfigManager) : ValidationResult :=
  let errors : List String := []
  let errors := if m.config.apiKey = "" then errors ++ ["FLOWISE_API_KEY is required"] else errors
  let errors := if m.config.baseUrl = "" then errors ++ ["FLOWISE_BASE_URL is required"] else errors
  let errors :=
    if ¬ strStartsWith m.config.baseUrl "http" then
      errors ++ ["FLOWISE_BASE_URL must start with http:// or https://"]
    else errors
  { valid := errors.length == 0, errors := errors }

/-- Method `updateConfig(newConfig)`: spread the partial over the current
record; the endpoint table is untouched and nothing else runs. -/
def FlowiseConfigManager.updateConfig (m : FlowiseConfigManager)
    (newConfig : PartialFlowiseConfig) : FlowiseConfigManager :=
  { m with config := mergeConfig m.config newConfig }

/-- Method `getBaseUrl()`. -/
def FlowiseConfigManager.getBaseUrl (m : FlowiseConfigManager) : String :=
  m.config.baseUrl

/-- Method `getApiKey()`. -/
def FlowiseConfigManager.getApiKey (m : FlowiseConfigManager) : String :=
  m.config.apiKey

/-- Method `getTimeout()`: `this.config.timeout || 30000`. -/
def FlowiseConfigManager.getTimeout (m : FlowiseConfigManager) : Nat :=
  jsOrNat m.config.timeout 30000

/-- Method `getRetries()`: `this.config.retries || 3`. -/
def FlowiseConfigManager.getRetries (m : FlowiseConfigManager) : Nat :=
  jsOrNat m.config.retries 3

/-- Method `isLoggingEnabled()`: `this.config.enableLogging ?? true`
(nullish coalescing: only absence gives the default, explicit `false` is
kept). -/
def FlowiseConfigManager.isLoggingEnabled (m : FlowiseConfigManager) : Bool :=
  m.config.enableLogging.getD true

/-- Method `isCachingEnabled()`: `this.config.enableCaching ?? true`. -/
def FlowiseConfigManager.isCachingEnabled (m : FlowiseConfigManager) : Bool :=
  m.config.enableCaching.getD true

/-- The module-level singleton `flowiseConfig = new FlowiseConfigManager()`,
parametrised by the environment. -/
def flowiseConfig (env : Env) : FlowiseConfigManager :=
  FlowiseConfigManager.new env emptyPartial

/-- The helper `createFlowiseConfig(config?)`. -/
def createFlowiseConfig (env : Env) (config : PartialFlowiseConfig) :
    FlowiseConfigManager :=
  FlowiseConfigManager.new env config

/-- The singleton built with both environment variables unset: apiKey is
empty, baseUrl is the hardcoded fallback host. -/
def mgr0 : FlowiseConfigManager := flowiseConfig { FLOWISE_API_KEY := none, FLOWISE_BASE_URL := none }


/-- A manager constructed with apiKey and baseUrl both supplied as the
empty string. -/
def mgrBothEmpty : FlowiseConfigManager :=
  FlowiseConfigManager.new { FLOWISE_API_KEY := none, FLOWISE_BASE_URL := none }
    { apiKey := some "", baseUrl := some "", timeout := none, retries := none
      enableLogging := none, enableCaching := none }

/-- A manager constructed with apiKey "k" and baseUrl "ftp://x". -/
def mgrFtp : FlowiseConfigManager :=
  FlowiseConfigManager.new { FLOWISE_API_KEY := none, FLOWISE_BASE_URL := none }
    { apiKey := some "k", baseUrl := some "ftp://x", timeout := none, retries := none
      enableLogging := none, enableCaching := none }

/-- The partial record `{ timeout: 5000 }`. -/
def onlyTimeout5000 : PartialFlowiseConfig :=
  { apiKey := none, baseUrl := none, timeout := some (some 5000), retries := none
    enableLogging := none, enableCaching := none }

/-- A manager constructed with timeout explicitly 0. -/
def mgrT0 : FlowiseConfigManager :=
  FlowiseConfigManager.new { FLOWISE_API_KEY := none, FLOWISE_BASE_URL := none }
    { apiKey := none, baseUrl := none, timeout := some (some 0), retries := none
      enableLogging := none, enableCaching := none }

/-- A manager constructed with timeout explicitly 5000. -/
def mgrT5000 : FlowiseConfigManager :=
  FlowiseConfigManager.new { FLOWISE_API_KEY := none, FLOWISE_BASE_URL := none }
    onlyTimeout5000

/-- A manager constructed with both feature flags explicitly false. -/
def mgrFlagsFalse : FlowiseConfigManager :=
  FlowiseConfigManager.new { FLOWISE_API_KEY := none, FLOWISE_BASE_URL := none }
    { apiKey := none, baseUrl := none, timeout := none, retries := none
      enableLogging := some (some false), enableCaching := some (some false) }

/-- A manager constructed with both feature flags explicitly set to the
undefined value, so the merged record stores no flag. -/
def mgrFlagsUndef : FlowiseConfigManager :=
  FlowiseConfigManager.new { FLOWISE_API_KEY := none, FLOWISE_BASE_URL := none }
    { apiKey := none, baseUrl := none, timeout := none, retries := none
      enableLogging := some none, enableCaching := some none }

/-- C1, counterexample: calling buildUrl under runtime semantics on the
name "notARealEndpoint" does not produce an UnknownEndpoint error
(the source contains no throw at all); it returns an ordinary string, the
base URL followed by the text "undefined". -/
theorem buildUrlJs_notARealEndpoint_ok :
    mgr0.buildUrlJs "notARealEndpoint" none =
      some (Except.ok ("https://api.flowiseai.com" ++ "undefined")) ∧
    mgr0.buildUrlJs "notARealEndpoint" none ≠
      some (Except.error FlowiseError.UnknownEndpoint) := by
  constructor
  · rfl
  · rw [show mgr0.buildUrlJs "notARealEndpoint" none =
        some (Except.ok ("https://api.flowiseai.com" ++ "undefined")) from rfl]
    exact fun hc => Except.noConfusion (Option.some.inj hc)

/-- C1 (amended): buildUrl never raises an UnknownEndpoint (or any) error:
every modelled runtime call returns ok.  Moreover, for every endpoint name
that is neither one of the fixed ten nor an inherited `Object.prototype`
key (a call with such a name is also rejected by the static key type of
buildUrl), the member access yields `undefined` and the result is the base
URL followed by the stringified undefined path. -/
theorem buildUrlJs_unknown_name (name : String) (hname : name ∉ endpointNames)
    (hproto : name ∉ objectProtoKeys)
    (m : FlowiseConfigManager) (p : Option String) :
    endpointLookup m.endpoints name = none ∧
    m.buildUrlJs name p =
      some (Except.ok (m.config.baseUrl ++
        jsStringOf (if truthyStr p then some ("undefined" ++ "/" ++ p.getD "") else none))) ∧
    (∀ (other : String) (q : Option String) (r : Except FlowiseError String),
      m.buildUrlJs other q = some r → r ≠ Except.error FlowiseError.UnknownEndpoint) := by
  simp only [endpointNames, List.mem_cons, List.not_mem_nil, or_false, not_or] at hname
  obtain ⟨h1, h2, h3, h4, h5, h6, h7, h8, h9, h10⟩ := hname
  have hl : endpointLookup m.endpoints name = none := by
    simp [endpointLookup, h1, h2, h3, h4, h5, h6, h7, h8, h9, h10]
  refine ⟨hl, ?_, ?_⟩
  · simp only [FlowiseConfigManager.buildUrlJs, hl, jsStringOf]
    rw [if_neg (fun hc => hproto hc.2)]
  · intro other q r h
    unfold FlowiseConfigManager.buildUrlJs at h
    by_cases hp : endpointLookup m.endpoints other = none ∧ other ∈ objectProtoKeys
    · rw [if_pos hp] at h
      exact absurd h (Option.noConfusion)
    · rw [if_neg hp, Option.some.injEq] at h
      exact h ▸ fun hc => Except.noConfusion hc

/-- C1 witness: the amended statement at the concrete unknown name
"notARealEndpoint" (outside both the table and the prototype keys) on the
default singleton manager. -/
theorem buildUrlJs_unknown_name_witness :
    endpointLookup mgr0.endpoints "notARealEndpoint" = none ∧
    mgr0.buildUrlJs "notARealEndpoint" none =
      some (Except.ok (mgr0.config.baseUrl ++
        jsStringOf (if truthyStr none then
          some ("undefined" ++ "/" ++ (none : Option String).getD "") else none))) :=
  ⟨(buildUrlJs_unknown_name "notARealEndpoint" (by decide) (by decide) mgr0 none).1,
   (buildUrlJs_unknown_name "notARealEndpoint" (by decide) (by decide) mgr0 none).2.1⟩

/-- C2, counterexample: on a record with empty apiKey and empty baseUrl,
validate does not return exactly two error messages; the protocol check
also fires on the empty base URL, so three errors come back. -/
theorem validate_both_empty_not_two_errors :
    mgrBothEmpty.validate.errors.length ≠ 2 ∧
    mgrBothEmpty.validate.errors =
      ["FLOWISE_API_KEY is required", "FLOWISE_BASE_URL is required",
       "FLOWISE_BASE_URL must start with http:// or https://"] := by
  constructor
  · decide
  · rfl

/-- C2 (amended): for every record with empty apiKey and empty baseUrl,
validate returns exactly three error messages, in the order apiKey-missing,
baseUrl-missing, protocol-prefix, and the validity flag is false. -/
theorem validate_empty_apiKey_empty_baseUrl (m : FlowiseConfigManager)
    (hk : m.config.apiKey = "") (hb : m.config.baseUrl = "") :
    m.validate =
      { valid := false
        errors := ["FLOWISE_API_KEY is required", "FLOWISE_BASE_URL is required",
                   "FLOWISE_BASE_URL must start with http:// or https://"] } := by
  simp only [FlowiseConfigManager.validate]
  rw [hk, hb]
  decide

/-- C2 witness: the amended statement at the concrete manager built from
empty apiKey and empty baseUrl. -/
theorem validate_empty_apiKey_empty_baseUrl_witness :
    mgrBothEmpty.validate =
      { valid := false
        errors := ["FLOWISE_API_KEY is required", "FLOWISE_BASE_URL is required",
                   "FLOWISE_BASE_URL must start with http:// or https://"] } :=
  validate_empty_apiKey_empty_baseUrl mgrBothEmpty rfl rfl

/-- C3, counterexample: with the empty string supplied as sub-path,
buildUrl does not return baseUrl ++ endpointPath ++ "/" ++ subPath; the
truthiness test drops the slash and yields the bare endpoint URL. -/
theorem buildUrl_empty_subPath_counterexample :
    mgr0.buildUrl EndpointName.prediction (some "") ≠
      mgr0.config.baseUrl ++ FLOWISE_ENDPOINTS.get EndpointName.prediction ++ "/" ++ "" ∧
    mgr0.buildUrl EndpointName.prediction (some "") =
      "https://api.flowiseai.com/api/v1/prediction" := by
  constructor
  · decide
  · rfl

/-- C3 (amended): for every constructed manager and endpoint name, buildUrl
with no sub-path returns the literal concatenation baseUrl ++ endpointPath,
and with a non-empty sub-path returns baseUrl ++ endpointPath ++ "/" ++
subPath (an empty sub-path instead falls back to the no-sub-path form); in
particular the ping and prediction examples hold on the default manager. -/
theorem buildUrl_concatenation (env : Env) (q : PartialFlowiseConfig)
    (name : EndpointName) (sub : String) (hsub : sub ≠ "") :
    (FlowiseConfigManager.new env q).buildUrl name none =
      (FlowiseConfigManager.new env q).config.baseUrl ++ FLOWISE_ENDPOINTS.get name ∧
    (FlowiseConfigManager.new env q).buildUrl name (some sub) =
      (FlowiseConfigManager.new env q).config.baseUrl ++ FLOWISE_ENDPOINTS.get name
        ++ "/" ++ sub ∧
    mgr0.buildUrl EndpointName.ping none = "https://api.flowiseai.com/api/v1/ping" ∧
    mgr0.buildUrl EndpointName.prediction (some "abc123") =
      "https://api.flowiseai.com/api/v1/prediction/abc123" := by
  refine ⟨rfl, ?_, rfl, rfl⟩
  have ht : truthyStr (some sub) = true := by simp [truthyStr, hsub]
  simp [FlowiseConfigManager.buildUrl, FlowiseConfigManager.new, ht, String.append_assoc]

/-- C3 witness: the amended statement at the concrete sub-path "abc123" on
the prediction endpoint of the default manager. -/
theorem buildUrl_concatenation_witness :
    mgr0.buildUrl EndpointName.prediction (some "abc123") =
      "https://api.flowiseai.com/api/v1/prediction/abc123" :=
  (buildUrl_concatenation { FLOWISE_API_KEY := none, FLOWISE_BASE_URL := none }
    emptyPartial EndpointName.prediction "abc123" (by decide)).2.2.2

/-- C4: getConfig after construction equals the default record overlaid
field-by-field with the supplied partial: each present field overrides its
default, each absent field keeps it (apiKey from FLOWISE_API_KEY or empty,
baseUrl from FLOWISE_BASE_URL or the hardcoded fallback host, timeout
30000, retries 3, both feature flags true). -/
theorem getConfig_overlay_defaults (env : Env) (q : PartialFlowiseConfig) :
    (FlowiseConfigManager.new env q).getConfig =
      { apiKey := q.apiKey.getD (jsOr env.FLOWISE_API_KEY "")
        baseUrl := q.baseUrl.getD (jsOr env.FLOWISE_BASE_URL "https://api.flowiseai.com")
        timeout := q.timeout.getD (some 30000)
        retries := q.retries.getD (some 3)
        enableLogging := q.enableLogging.getD (some true)
        enableCaching := q.enableCaching.getD (some true) } := rfl

/-- C5: getHeaders returns exactly the Content-Type and User-Agent entries,
together with the Authorization Bearer entry exactly when the stored apiKey
is non-empty (with an empty apiKey the Authorization entry is absent). -/
theorem getHeaders_exact (m : FlowiseConfigManager) :
    m.getHeaders =
      if m.config.apiKey = "" then
        [("Content-Type", "application/json"), ("User-Agent", "Zania-Platform/1.0.0")]
      else
        [("Content-Type", "application/json"), ("User-Agent", "Zania-Platform/1.0.0"),
         ("Authorization", "Bearer " ++ m.config.apiKey)] := by
  by_cases h : m.config.apiKey = "" <;>
    simp [FlowiseConfigManager.getHeaders, h]

/-- C6: updateConfig changes exactly the fields present in the supplied
partial record: each absent field keeps its prior value, the endpoint table
is untouched, and nothing but the field-wise merge happens; in particular a
partial with only timeout 5000 changes only the timeout field. -/
theorem updateConfig_frame (m : FlowiseConfigManager) (q : PartialFlowiseConfig) :
    ((m.updateConfig q).config.apiKey = q.apiKey.getD m.config.apiKey ∧
      (m.updateConfig q).config.baseUrl = q.baseUrl.getD m.config.baseUrl ∧
      (m.updateConfig q).config.timeout = q.timeout.getD m.config.timeout ∧
      (m.updateConfig q).config.retries = q.retries.getD m.config.retries ∧
      (m.updateConfig q).config.enableLogging = q.enableLogging.getD m.config.enableLogging ∧
      (m.updateConfig q).config.enableCaching = q.enableCaching.getD m.config.enableCaching) ∧
    (m.updateConfig q).endpoints = m.endpoints ∧
    (m.updateConfig onlyTimeout5000).config = { m.config with timeout := some 5000 } :=
  ⟨⟨rfl, rfl, rfl, rfl, rfl, rfl⟩, rfl, rfl⟩

/-- C7: the validity flag of validate is true exactly when its error list
is empty; and on a record with apiKey "k" and baseUrl "ftp://x" validate
returns exactly one error, the protocol-prefix message, with valid false. -/
theorem validate_valid_iff_errors_empty (m : FlowiseConfigManager) :
    (m.validate.valid = true ↔ m.validate.errors = []) ∧
    mgrFtp.validate =
      { valid := false
        errors := ["FLOWISE_BASE_URL must start with http:// or https://"] } := by
  constructor
  · have h : m.validate.valid = (m.validate.errors.length == 0) := rfl
    rw [h]
    simp
  · decide

/-- C8: getTimeout returns 30000 when the stored timeout is unset or 0, and
the stored value otherwise (falsy coalescing). -/
theorem getTimeout_falsy_default (m : FlowiseConfigManager) :
    ((m.config.timeout = none ∨ m.config.timeout = some 0) → m.getTimeout = 30000) ∧
    (∀ t : Nat, m.config.timeout = some t → t ≠ 0 → m.getTimeout = t) := by
  constructor
  · rintro (h | h) <;> simp [FlowiseConfigManager.getTimeout, jsOrNat, h]
  · intro t h ht
    simp [FlowiseConfigManager.getTimeout, jsOrNat, h, ht]

/-- C8 witness: a stored timeout of 0 yields 30000 and a stored timeout of
5000 yields 5000, on concrete managers. -/
theorem getTimeout_falsy_default_witness :
    mgrT0.getTimeout = 30000 ∧ mgrT5000.getTimeout = 5000 :=
  ⟨(getTimeout_falsy_default mgrT0).1 (Or.inr rfl),
   (getTimeout_falsy_default mgrT5000).2 5000 rfl (by decide)⟩

/-- C9: the two flag accessors return the stored flag whenever one is
present (so an explicit false stays false) and default to true exactly when
the stored flag is absent. -/
theorem flags_false_vs_unset (m : FlowiseConfigManager) :
    (m.config.enableLogging = some false → m.isLoggingEnabled = false) ∧
    (m.config.enableLogging = none → m.isLoggingEnabled = true) ∧
    (∀ b, m.config.enableLogging = some b → m.isLoggingEnabled = b) ∧
    (m.config.enableCaching = some false → m.isCachingEnabled = false) ∧
    (m.config.enableCaching = none → m.isCachingEnabled = true) ∧
    (∀ b, m.config.enableCaching = some b → m.isCachingEnabled = b) := by
  refine ⟨fun h => ?_, fun h => ?_, fun b h => ?_, fun h => ?_, fun h => ?_, fun b h => ?_⟩ <;>
    simp [FlowiseConfigManager.isLoggingEnabled, FlowiseConfigManager.isCachingEnabled, h]

/-- C9 witness: explicit false gives false, a stored undefined flag gives
true, and the default manager (flags true) gives true, on concrete
managers. -/
theorem flags_false_vs_unset_witness :
    mgrFlagsFalse.isLoggingEnabled = false ∧ mgrFlagsUndef.isLoggingEnabled = true ∧
    mgrFlagsFalse.isCachingEnabled = false ∧ mgrFlagsUndef.isCachingEnabled = true ∧
    mgr0.isLoggingEnabled = true :=
  ⟨(flags_false_vs_unset mgrFlagsFalse).1 rfl,
   (flags_false_vs_unset mgrFlagsUndef).2.1 rfl,
   (flags_false_vs_unset mgrFlagsFalse).2.2.2.1 rfl,
   (flags_false_vs_unset mgrFlagsUndef).2.2.2.2.1 rfl,
   (flags_false_vs_unset mgr0).2.2.1 true rfl⟩

/-- C10: for every manager and known endpoint name, buildUrl with the empty
string as sub-path returns exactly the no-sub-path result, baseUrl ++
endpointPath with no trailing slash, because the sub-path is tested for
truthiness rather than presence. -/
theorem buildUrl_empty_subPath_eq_no_subPath (m : FlowiseConfigManager)
    (name : EndpointName) :
    m.buildUrl name (some "") = m.buildUrl name none ∧
    m.buildUrl name none = m.config.baseUrl ++ m.endpoints.get name :=
  ⟨rfl, rfl⟩

end Flowise
